import Mathlib

/-!
Shallow embedding of the KPalerts outbreak-alert pipeline (src/app.py).

Numeric columns are modelled with `ℚ` (pandas floats on the values this
program produces: integer case counts and numeric thresholds); a column
value that can be missing (`NaN`) is an `Option`.  A pandas comparison
against a missing value is false, which the embedding makes explicit.
-/

namespace KPalerts

/-! ## Alert Classifier (app.py lines 103-113) -/

/-- The three values of the `Alert_Level` column. -/
inductive AlertLevel where
  | normal
  | alert
  | highAlert
deriving DecidableEq, Repr

/-- Embeds the pandas mask `(Cases > T) & T.notna()`: the comparison of
`Cases` with a threshold column value, false when the threshold is missing. -/
def exceeds (cases : ℚ) (t : Option ℚ) : Bool :=
  match t with
  | some v => decide (v < cases)
  | none => false

/-- The nested `np.where` assigning the `Alert_Level` column
(app.py lines 103-108). -/
def Alert_Level (cases : ℚ) (t95 t99 : Option ℚ) : AlertLevel :=
  if exceeds cases t99 then .highAlert
  else if exceeds cases t95 then .alert
  else .normal

/-- The nested `np.where` assigning the `Deviation` column from the already
computed `Alert_Level` (app.py lines 110-113).  In the triggering branches the
matching threshold is present, so `getD 0` is never the value used. -/
def Deviation (cases : ℚ) (t95 t99 : Option ℚ) : ℚ :=
  if Alert_Level cases t95 t99 = .highAlert then cases - t99.getD 0
  else if Alert_Level cases t95 t99 = .alert then cases - t95.getD 0
  else 0

/-- A row of the merged `alerts` table (observation left-joined with its
threshold reference row; app.py line 102).  Threshold fields are `Option`
because the left join leaves them missing for unmatched keys. -/
structure AlertRow where
  Facility_ID : String
  Disease : String
  Season : String
  Cases : ℚ
  Mean : Option ℚ
  SD : Option ℚ
  Threshold_95 : Option ℚ
  Threshold_99 : Option ℚ
deriving DecidableEq, Repr

/-- The `Alert_Level` column value of a merged row. -/
def rowLevel (r : AlertRow) : AlertLevel :=
  Alert_Level r.Cases r.Threshold_95 r.Threshold_99

/-- The `Deviation` column value of a merged row. -/
def rowDeviation (r : AlertRow) : ℚ :=
  Deviation r.Cases r.Threshold_95 r.Threshold_99

/-! ## Filter / Report Selector (app.py lines 116-122) -/

/-- Default-mode output: `alerts[(Alert_Level != 'Normal') &
Threshold_95.notna() & (Deviation >= min_deviation)]` (app.py line 116). -/
def filtered_alerts (min_deviation : ℤ) (alerts : List AlertRow) : List AlertRow :=
  alerts.filter fun r =>
    decide (rowLevel r ≠ .normal) && r.Threshold_95.isSome &&
      decide ((min_deviation : ℚ) ≤ rowDeviation r)

/-- show_all-mode output: `all_data[all_data['Threshold_95'].notna()]`
(app.py line 122). -/
def all_data (alerts : List AlertRow) : List AlertRow :=
  alerts.filter fun r => r.Threshold_95.isSome

/-! ## Season Classifier (app.py lines 72-85) -/

/-- `assign_season` from app.py: `NaN` week (modelled `none`) gives
`'Unknown'`, otherwise fixed inclusive week ranges. -/
def assign_season (week : Option ℤ) : String :=
  match week with
  | none => "Unknown"
  | some w =>
    if 10 ≤ w ∧ w ≤ 20 then "Spring"
    else if 21 ≤ w ∧ w ≤ 35 then "Summer"
    else if 36 ≤ w ∧ w ≤ 43 then "Autumn"
    else "Winter"

/-! ## Year-round override (app.py lines 94-99) -/

/-- The hardcoded `year_round_diseases` allowlist (app.py lines 94-98). -/
def year_round_diseases : List String :=
  ["Acute Flaccid Paralysis (New Cases)", "Botulism (New Cases)",
   "Gonorrhea (New Cases)", "HIV/AIDS (New Cases)", "Leprosy (New Cases)",
   "Nosocomial Infections (New Cases)", "Syphilis (New Cases)",
   "Visceral Leishmaniasis (New Cases)", "Neonatal Tetanus (New Cases)"]

/-- A row of the melted long-form table `current_long` (app.py lines 88-91). -/
structure LongRow where
  Facility_ID : String
  Season : String
  Disease : String
  Cases : ℚ
deriving DecidableEq, Repr

/-- Effect of `current_long.loc[Disease.isin(year_round_diseases), 'Season'] =
'Year-Round'` on a single row (app.py line 99). -/
def overrideRow (r : LongRow) : LongRow :=
  if r.Disease ∈ year_round_diseases then { r with Season := "Year-Round" } else r

/-- The year-round override applied to the whole long-form table. -/
def applyYearRoundOverride (rows : List LongRow) : List LongRow :=
  rows.map overrideRow

/-! ## Identity Builder (app.py lines 47-54)

An input table row is modelled as an association list from column name to
cell value; a column that is absent from the input schema has no entry, a
present cell that is `NaN` is `none`. -/

/-- The fixed hierarchy order of the 7 organizational-unit columns
(app.py line 47). -/
def org_cols : List String :=
  ["orgunitlevel1", "orgunitlevel2", "orgunitlevel3", "orgunitlevel4",
   "orgunitlevel5", "orgunitlevel6", "organisationunitname"]

/-- `fillna('Unknown')` on one cell. -/
def fillUnknown (v : Option String) : String := v.getD "Unknown"

/-- One schema row: (column name, cell value) pairs. -/
def SchemaRow : Type := List (String × Option String)

/-- `col in current_df.columns`. -/
def colPresent (row : SchemaRow) (c : String) : Bool :=
  row.any fun p => p.1 = c

/-- The loop `for col in org_cols: if col in current_df.columns:
current_df[col] = current_df[col].fillna('Unknown').astype(str)`
(app.py lines 48-50): columns absent from the schema are left untouched. -/
def fillOrgCols (row : SchemaRow) : SchemaRow :=
  row.map fun p => if p.1 ∈ org_cols then (p.1, some (fillUnknown p.2)) else p

/-- `current_df[c]` on one row: a `KeyError` when the column is absent from
the schema; otherwise the cell as a string (`astype(str)` renders a missing
value as `"nan"`, a branch that is unreachable for org columns after
`fillOrgCols`). -/
def getStr (row : SchemaRow) (c : String) : Except String String :=
  match row.find? (fun p => p.1 = c) with
  | none => Except.error ("KeyError: " ++ c)
  | some p => Except.ok (p.2.getD "nan")

/-- The underscore concatenation building `Facility_ID` from the 7 already
filled column values (app.py lines 51-54). -/
def Facility_ID (l1 l2 l3 l4 l5 l6 nm : String) : String :=
  l1 ++ "_" ++ l2 ++ "_" ++ l3 ++ "_" ++ l4 ++ "_" ++ l5 ++ "_" ++ l6 ++ "_" ++ nm

/-- The whole Identity Builder on one row: the fill loop (which skips absent
columns) followed by the unconditional 7-column access that concatenates
`Facility_ID` (app.py lines 48-54).  Accessing an absent column is a
`KeyError`. -/
def buildFacility_ID (row : SchemaRow) : Except String String := do
  let filled := fillOrgCols row
  let l1 ← getStr filled "orgunitlevel1"
  let l2 ← getStr filled "orgunitlevel2"
  let l3 ← getStr filled "orgunitlevel3"
  let l4 ← getStr filled "orgunitlevel4"
  let l5 ← getStr filled "orgunitlevel5"
  let l6 ← getStr filled "orgunitlevel6"
  let nm ← getStr filled "organisationunitname"
  pure (Facility_ID l1 l2 l3 l4 l5 l6 nm)

/-! ## Period Parser (app.py lines 57-64)

The single pattern is `Week (\d+) (\d{4})-\d{2}-\d{2} - \d{4}-\d{2}-\d{2}`,
applied with `str.extract`, i.e. `re.search` semantics: the pattern may match
anywhere in the (stripped) label.  The greedy `\d+` followed by the literal
space is deterministic (shortening the digit run would put a digit where the
space is required), so the matcher below needs no backtracking. -/

/-- The `\d` character class, modelled as the ASCII digits `0`-`9`. -/
def isDigitChar (c : Char) : Bool :=
  48 ≤ c.toNat && c.toNat ≤ 57

/-- Matches the literal character sequence `lit` at the front, returning the
rest of the input. -/
def matchLit : List Char → List Char → Option (List Char)
  | [], s => some s
  | _ :: _, [] => none
  | c :: cs, x :: xs => if x = c then matchLit cs xs else none

/-- Matches exactly `n` digits (`\d{n}`), returning them and the rest. -/
def matchDigitsN : ℕ → List Char → Option (List Char × List Char)
  | 0, s => some ([], s)
  | _ + 1, [] => none
  | n + 1, x :: xs =>
    if isDigitChar x then
      (matchDigitsN n xs).map fun p => (x :: p.1, p.2)
    else none

/-- Matches the uncaptured tail `-\d{2}-\d{2} - \d{4}-\d{2}-\d{2}`. -/
def matchDateTail (s : List Char) : Option (List Char) := do
  let s ← matchLit ['-'] s
  let (_, s) ← matchDigitsN 2 s
  let s ← matchLit ['-'] s
  let (_, s) ← matchDigitsN 2 s
  let s ← matchLit [' ', '-', ' '] s
  let (_, s) ← matchDigitsN 4 s
  let s ← matchLit ['-'] s
  let (_, s) ← matchDigitsN 2 s
  let s ← matchLit ['-'] s
  let (_, s) ← matchDigitsN 2 s
  pure s

/-- Tries the whole pattern at the current position, returning the two
capture groups (week digits, year digits). -/
def matchPeriodAt (s : List Char) : Option (List Char × List Char) :=
  match matchLit "Week ".data s with
  | none => none
  | some s1 =>
    let wk := s1.takeWhile isDigitChar
    let s2 := s1.dropWhile isDigitChar
    if wk.isEmpty then none
    else
      match matchLit [' '] s2 with
      | none => none
      | some s3 =>
        match matchDigitsN 4 s3 with
        | none => none
        | some (yr, s4) =>
          match matchDateTail s4 with
          | none => none
          | some _ => some (wk, yr)

/-- `re.search`: try the pattern at every position, first match wins. -/
def searchPeriod : List Char → Option (List Char × List Char)
  | [] => matchPeriodAt []
  | c :: rest =>
    match matchPeriodAt (c :: rest) with
    | some r => some r
    | none => searchPeriod rest

/-- Numeric value of a digit capture (`pd.to_numeric` on a digit string). -/
def digitsToNat (ds : List Char) : ℕ :=
  ds.foldl (fun a c => 10 * a + (c.toNat - '0'.toNat)) 0

/-- Python `str.strip()`: drop whitespace from both ends. -/
def stripChars (s : List Char) : List Char :=
  ((s.dropWhile Char.isWhitespace).reverse.dropWhile Char.isWhitespace).reverse

/-- The Period Parser on one label: strip, `str.extract` with the fixed
pattern, then `pd.to_numeric` on the two captures (app.py lines 57-63).
`none` means both `Week` and `Year` are missing for that row. -/
def extractWeekYear (label : String) : Option (ℕ × ℕ) :=
  (searchPeriod (stripChars label.data)).map fun p =>
    (digitsToNat p.1, digitsToNat p.2)

/-- The `dropna(subset=['Year','Week'])` step (app.py line 64) at table
level: a row survives into the Reshaper with its parsed (Week, Year) exactly
when its label matched. -/
def parsePeriodRows (labels : List String) : List (String × ℕ × ℕ) :=
  labels.filterMap fun l => (extractWeekYear l).map fun p => (l, p.1, p.2)

/-- Rank of an alert level in the order Normal < Alert < High Alert. -/
def levelRank : AlertLevel → ℕ
  | .normal => 0
  | .alert => 1
  | .highAlert => 2

/-! ## Helper lemmas -/

/-- Raising `Cases` preserves a firing threshold comparison. -/
lemma exceeds_mono {c1 c2 : ℚ} (h : c1 ≤ c2) (t : Option ℚ) :
    exceeds c1 t = true → exceeds c2 t = true := by
  cases t with
  | none => simp [exceeds]
  | some v =>
    simp only [exceeds, decide_eq_true_eq]
    exact fun hv => lt_of_lt_of_le hv h

/-! ## Claim theorems -/

/-- C1: the Alert Classifier applies the strict priority rule: a present
`Threshold_99` exceeded by `Cases` gives High Alert with deviation
`Cases - Threshold_99`; otherwise a present `Threshold_95` exceeded by
`Cases` gives Alert with deviation `Cases - Threshold_95`; otherwise Normal
with deviation 0; and a missing threshold never triggers a comparison. -/
theorem C1_alert_classifier (c : ℚ) (t95 t99 : Option ℚ) :
    (∀ t, t99 = some t → t < c →
      Alert_Level c t95 t99 = .highAlert ∧ Deviation c t95 t99 = c - t) ∧
    (exceeds c t99 = false → ∀ t, t95 = some t → t < c →
      Alert_Level c t95 t99 = .alert ∧ Deviation c t95 t99 = c - t) ∧
    (exceeds c t99 = false → exceeds c t95 = false →
      Alert_Level c t95 t99 = .normal ∧ Deviation c t95 t99 = 0) ∧
    exceeds c none = false := by
  refine ⟨?_, ?_, ?_, rfl⟩
  · rintro t rfl ht
    have he : exceeds c (some t) = true := by
      simp [exceeds, ht]
    constructor
    · simp [Alert_Level, he]
    · simp [Deviation, Alert_Level, he]
  · rintro h99 t rfl ht
    have he : exceeds c (some t) = true := by
      simp [exceeds, ht]
    constructor
    · simp [Alert_Level, h99, he]
    · simp [Deviation, Alert_Level, h99, he]
  · intro h99 h95
    constructor
    · simp [Alert_Level, h99, h95]
    · simp [Deviation, Alert_Level, h99, h95]

/-- Witness for C1 at scenario A of the spec: Cases = 12, Threshold_95 = 8,
Threshold_99 = 15. -/
theorem C1_witness :
    Alert_Level 12 (some 8) (some 15) = .alert ∧
    Deviation 12 (some 8) (some 15) = 12 - 8 :=
  (C1_alert_classifier 12 (some 8) (some 15)).2.1 (by decide) 8 rfl (by decide)

/-- C8: for fixed thresholds the assigned alert level is monotone in `Cases`
with respect to the order Normal < Alert < High Alert. -/
theorem C8_monotone (t95 t99 : Option ℚ) (c1 c2 : ℚ) (h : c1 ≤ c2) :
    levelRank .normal < levelRank .alert ∧
    levelRank .alert < levelRank .highAlert ∧
    levelRank (Alert_Level c1 t95 t99) ≤ levelRank (Alert_Level c2 t95 t99) := by
  refine ⟨by decide, by decide, ?_⟩
  unfold Alert_Level
  cases h99 : exceeds c1 t99 with
  | true =>
    rw [exceeds_mono h t99 h99]
    simp
  | false =>
    cases h95 : exceeds c1 t95 with
    | true =>
      rw [exceeds_mono h t95 h95]
      cases h99' : exceeds c2 t99 <;> simp [levelRank]
    | false =>
      simp [h99, h95, levelRank]

/-- Witness for C8 at concrete inputs. -/
theorem C8_witness :
    levelRank (Alert_Level 10 (some 8) (some 15)) ≤
      levelRank (Alert_Level 20 (some 8) (some 15)) :=
  (C8_monotone (some 8) (some 15) 10 20 (by norm_num)).2.2

/-- C2: in default mode, for any `min_deviation ≥ 1`, a classified row is in
the output iff its alert level is not Normal, its `Threshold_95` is present
and its deviation is at least `min_deviation`; a row with both thresholds
missing is never in the output. -/
theorem C2_default_filter (min_deviation : ℤ) (_hm : 1 ≤ min_deviation)
    (alerts : List AlertRow) (r : AlertRow) :
    (r ∈ filtered_alerts min_deviation alerts ↔
      r ∈ alerts ∧ rowLevel r ≠ .normal ∧ r.Threshold_95.isSome = true ∧
        (min_deviation : ℚ) ≤ rowDeviation r) ∧
    (r.Threshold_95 = none → r.Threshold_99 = none →
      r ∉ filtered_alerts min_deviation alerts) := by
  constructor
  · simp [filtered_alerts, List.mem_filter, and_assoc]
  · intro h95 h99 hmem
    simp [filtered_alerts, List.mem_filter, h95] at hmem

/-- Witness for C2: the scenario-A row passes the default filter with
`min_deviation = 3`. -/
theorem C2_witness :
    (⟨"F", "D", "Winter", 12, none, none, some 8, some 15⟩ : AlertRow) ∈
      filtered_alerts 3 [⟨"F", "D", "Winter", 12, none, none, some 8, some 15⟩] :=
  (C2_default_filter 3 (by decide)
      [⟨"F", "D", "Winter", 12, none, none, some 8, some 15⟩]
      ⟨"F", "D", "Winter", 12, none, none, some 8, some 15⟩).1.mpr
    ⟨by simp, by decide, by decide, by
      simp only [rowDeviation, Deviation, Alert_Level, exceeds]
      rw [if_neg (fun h => AlertLevel.noConfusion h)]
      norm_num⟩

/-- C9: the show_all output is exactly the classified rows whose
`Threshold_95` is present, regardless of alert level and `min_deviation`;
every default-mode output row is also in the show_all output, and every
default-mode output row has a non-Normal alert level. -/
theorem C9_show_all (alerts : List AlertRow) (min_deviation : ℤ) (r : AlertRow) :
    (r ∈ all_data alerts ↔ r ∈ alerts ∧ r.Threshold_95.isSome = true) ∧
    (r ∈ filtered_alerts min_deviation alerts → r ∈ all_data alerts) ∧
    (r ∈ filtered_alerts min_deviation alerts → rowLevel r ≠ .normal) := by
  refine ⟨by simp [all_data, List.mem_filter], ?_, ?_⟩
  · intro hmem
    simp only [filtered_alerts, List.mem_filter, Bool.and_eq_true,
      decide_eq_true_eq] at hmem
    simp [all_data, List.mem_filter, hmem.1, hmem.2.1.2]
  · intro hmem
    simp only [filtered_alerts, List.mem_filter, Bool.and_eq_true,
      decide_eq_true_eq] at hmem
    exact hmem.2.1.1

/-- Witness for C9 at a concrete table. -/
theorem C9_witness :
    (⟨"F", "D", "Winter", 12, none, none, some 8, some 15⟩ : AlertRow) ∈
      all_data [⟨"F", "D", "Winter", 12, none, none, some 8, some 15⟩] :=
  (C9_show_all [⟨"F", "D", "Winter", 12, none, none, some 8, some 15⟩] 3
      ⟨"F", "D", "Winter", 12, none, none, some 8, some 15⟩).1.mpr
    ⟨by simp, by decide⟩

/-- C10: a row whose `Threshold_99` is present and exceeded but whose
`Threshold_95` is missing is classified High Alert, yet appears in neither
the default-mode nor the show_all output, since both require `Threshold_95`
to be present. -/
theorem C10_high_alert_hidden (r : AlertRow) (t : ℚ)
    (h99 : r.Threshold_99 = some t) (hgt : t < r.Cases)
    (h95 : r.Threshold_95 = none)
    (alerts : List AlertRow) (min_deviation : ℤ) :
    rowLevel r = .highAlert ∧
    r ∉ filtered_alerts min_deviation alerts ∧
    r ∉ all_data alerts := by
  refine ⟨?_, ?_, ?_⟩
  · have he : exceeds r.Cases r.Threshold_99 = true := by
      simp [exceeds, h99, hgt]
    simp [rowLevel, Alert_Level, he]
  · intro hmem
    simp [filtered_alerts, List.mem_filter, h95] at hmem
  · intro hmem
    simp [all_data, List.mem_filter, h95] at hmem

/-- Witness for C10 at a concrete row. -/
theorem C10_witness :
    rowLevel ⟨"F", "D", "Winter", 100, none, none, none, some 15⟩ = .highAlert ∧
    (⟨"F", "D", "Winter", 100, none, none, none, some 15⟩ : AlertRow) ∉
      filtered_alerts 3 [⟨"F", "D", "Winter", 100, none, none, none, some 15⟩] ∧
    (⟨"F", "D", "Winter", 100, none, none, none, some 15⟩ : AlertRow) ∉
      all_data [⟨"F", "D", "Winter", 100, none, none, none, some 15⟩] :=
  C10_high_alert_hidden ⟨"F", "D", "Winter", 100, none, none, none, some 15⟩
    15 rfl (by decide) rfl
    [⟨"F", "D", "Winter", 100, none, none, none, some 15⟩] 3

/-- C4: season assignment is total in the week number, maps the spec's eight
sample weeks as stated, sends weeks 10-20 to Spring, 21-35 to Summer, 36-43
to Autumn, and every other week to Winter. -/
theorem C4_assign_season :
    assign_season (some 9) = "Winter" ∧ assign_season (some 10) = "Spring" ∧
    assign_season (some 20) = "Spring" ∧ assign_season (some 21) = "Summer" ∧
    assign_season (some 35) = "Summer" ∧ assign_season (some 36) = "Autumn" ∧
    assign_season (some 43) = "Autumn" ∧ assign_season (some 44) = "Winter" ∧
    (∀ w : ℤ, 10 ≤ w → w ≤ 20 → assign_season (some w) = "Spring") ∧
    (∀ w : ℤ, 21 ≤ w → w ≤ 35 → assign_season (some w) = "Summer") ∧
    (∀ w : ℤ, 36 ≤ w → w ≤ 43 → assign_season (some w) = "Autumn") ∧
    (∀ w : ℤ, ¬(10 ≤ w ∧ w ≤ 20) → ¬(21 ≤ w ∧ w ≤ 35) → ¬(36 ≤ w ∧ w ≤ 43) →
      assign_season (some w) = "Winter") := by
  refine ⟨by decide, by decide, by decide, by decide, by decide, by decide,
    by decide, by decide, ?_, ?_, ?_, ?_⟩
  · intro w h1 h2
    show (if 10 ≤ w ∧ w ≤ 20 then "Spring" else _) = "Spring"
    rw [if_pos ⟨h1, h2⟩]
  · intro w h1 h2
    show (if 10 ≤ w ∧ w ≤ 20 then _ else if 21 ≤ w ∧ w ≤ 35 then "Summer" else _)
        = "Summer"
    rw [if_neg (by omega), if_pos ⟨h1, h2⟩]
  · intro w h1 h2
    show (if 10 ≤ w ∧ w ≤ 20 then _ else if 21 ≤ w ∧ w ≤ 35 then _
        else if 36 ≤ w ∧ w ≤ 43 then "Autumn" else _) = "Autumn"
    rw [if_neg (by omega), if_neg (by omega), if_pos ⟨h1, h2⟩]
  · intro w h1 h2 h3
    show (if 10 ≤ w ∧ w ≤ 20 then _ else if 21 ≤ w ∧ w ≤ 35 then _
        else if 36 ≤ w ∧ w ≤ 43 then _ else "Winter") = "Winter"
    rw [if_neg h1, if_neg h2, if_neg h3]

/-- Witness for C4 at concrete weeks 15 and 50. -/
theorem C4_witness :
    assign_season (some 15) = "Spring" ∧ assign_season (some 50) = "Winter" :=
  ⟨C4_assign_season.2.2.2.2.2.2.2.2.1 15 (by decide) (by decide),
   C4_assign_season.2.2.2.2.2.2.2.2.2.2.2 50 (by decide) (by decide) (by decide)⟩

/-- C5: the allowlist has 9 diseases; a long row whose disease is in it has
its season rewritten to Year-Round (other fields unchanged) regardless of
the week-derived season, and a row whose disease is not in it is unchanged;
the table-level override is the row map. -/
theorem C5_year_round :
    year_round_diseases.length = 9 ∧
    (∀ r : LongRow, r.Disease ∈ year_round_diseases →
      (overrideRow r).Season = "Year-Round" ∧
      (overrideRow r).Facility_ID = r.Facility_ID ∧
      (overrideRow r).Disease = r.Disease ∧ (overrideRow r).Cases = r.Cases) ∧
    (∀ r : LongRow, r.Disease ∉ year_round_diseases → overrideRow r = r) ∧
    (∀ rows : List LongRow, applyYearRoundOverride rows = rows.map overrideRow) := by
  refine ⟨rfl, ?_, ?_, fun rows => rfl⟩
  · intro r h
    simp [overrideRow, h]
  · intro r h
    simp [overrideRow, h]

/-- Witness for C5 at scenario B of the spec: HIV/AIDS in Winter week 2 is
forced to Year-Round. -/
theorem C5_witness :
    (overrideRow ⟨"F", "Winter", "HIV/AIDS (New Cases)", 5⟩).Season = "Year-Round" :=
  (C5_year_round.2.1 ⟨"F", "Winter", "HIV/AIDS (New Cases)", 5⟩ (by decide)).1

/-! ## C6: injectivity of Facility_ID -/

/-- Splitting at an underscore separator is unambiguous when neither prefix
contains an underscore. -/
lemma sep_split (a : List Char) : ∀ (b r s : List Char), '_' ∉ a → '_' ∉ b →
    a ++ '_' :: r = b ++ '_' :: s → a = b ∧ r = s := by
  induction a with
  | nil =>
    intro b r s _ hb h
    cases b with
    | nil => simpa using h
    | cons y ys =>
      simp only [List.nil_append, List.cons_append, List.cons.injEq] at h
      exact absurd (h.1 ▸ List.mem_cons_self y ys) hb
  | cons x xs ih =>
    intro b r s ha hb h
    cases b with
    | nil =>
      simp only [List.nil_append, List.cons_append, List.cons.injEq] at h
      exact absurd (h.1 ▸ List.mem_cons_self x xs) ha
    | cons y ys =>
      simp only [List.cons_append, List.cons.injEq] at h
      have ha' : '_' ∉ xs := fun hx => ha (List.mem_cons_of_mem x hx)
      have hb' : '_' ∉ ys := fun hx => hb (List.mem_cons_of_mem y hx)
      obtain ⟨h1, h2⟩ := ih ys r s ha' hb' h.2
      exact ⟨by rw [h.1, h1], h2⟩

/-- Character shape of the `Facility_ID` concatenation. -/
lemma Facility_ID_data (l1 l2 l3 l4 l5 l6 nm : String) :
    (Facility_ID l1 l2 l3 l4 l5 l6 nm).data =
      l1.data ++ '_' :: (l2.data ++ '_' :: (l3.data ++ '_' :: (l4.data ++ '_' ::
        (l5.data ++ '_' :: (l6.data ++ '_' :: nm.data))))) := by
  show l1.data ++ ['_'] ++ l2.data ++ ['_'] ++ l3.data ++ ['_'] ++ l4.data ++ ['_'] ++
      l5.data ++ ['_'] ++ l6.data ++ ['_'] ++ nm.data = _
  simp [List.append_assoc]

/-- C6 counterexample: the underscore join is not injective on arbitrary
field values — a value that itself contains an underscore shifts the
separator, so two distinct post-fill 7-tuples receive the same
`Facility_ID`. -/
theorem C6_counterexample :
    Facility_ID "a_b" "c" "c" "c" "c" "c" "c" =
      Facility_ID "a" "b_c" "c" "c" "c" "c" "c" ∧
    ("a_b", "c", "c", "c", "c", "c", "c") ≠
      (("a", "b_c", "c", "c", "c", "c", "c") :
        String × String × String × String × String × String × String) := by
  exact ⟨by decide, by decide⟩

/-- C6 (amended): the `Facility_ID` construction is deterministic, the fill
value "Unknown" contains no underscore, and when no post-fill field value
contains an underscore two rows receive the same `Facility_ID` iff their
post-fill 7-tuples are equal; without that restriction only the
tuples-equal-implies-IDs-equal direction holds. -/
theorem C6_amended_injective (a1 a2 a3 a4 a5 a6 a7 b1 b2 b3 b4 b5 b6 b7 : String)
    (h : ∀ s ∈ [a1, a2, a3, a4, a5, a6, a7, b1, b2, b3, b4, b5, b6, b7],
      '_' ∉ s.data) :
    '_' ∉ (fillUnknown none).data ∧
    (Facility_ID a1 a2 a3 a4 a5 a6 a7 = Facility_ID b1 b2 b3 b4 b5 b6 b7 ↔
      (a1, a2, a3, a4, a5, a6, a7) = (b1, b2, b3, b4, b5, b6, b7)) := by
  refine ⟨by decide, ?_, ?_⟩
  · intro heq
    have hd := congrArg String.data heq
    rw [Facility_ID_data, Facility_ID_data] at hd
    obtain ⟨e1, hd⟩ := sep_split _ _ _ _ (h a1 (by simp)) (h b1 (by simp)) hd
    obtain ⟨e2, hd⟩ := sep_split _ _ _ _ (h a2 (by simp)) (h b2 (by simp)) hd
    obtain ⟨e3, hd⟩ := sep_split _ _ _ _ (h a3 (by simp)) (h b3 (by simp)) hd
    obtain ⟨e4, hd⟩ := sep_split _ _ _ _ (h a4 (by simp)) (h b4 (by simp)) hd
    obtain ⟨e5, hd⟩ := sep_split _ _ _ _ (h a5 (by simp)) (h b5 (by simp)) hd
    obtain ⟨e6, hd⟩ := sep_split _ _ _ _ (h a6 (by simp)) (h b6 (by simp)) hd
    simp only [Prod.mk.injEq]
    exact ⟨String.ext e1, String.ext e2, String.ext e3, String.ext e4,
      String.ext e5, String.ext e6, String.ext hd⟩
  · intro heq
    simp only [Prod.mk.injEq] at heq
    obtain ⟨rfl, rfl, rfl, rfl, rfl, rfl, rfl⟩ := heq
    rfl

/-- Witness for C6 (amended) at concrete underscore-free values. -/
theorem C6_witness :
    Facility_ID "a" "b" "c" "d" "e" "f" "g" =
        Facility_ID "a" "b" "c" "d" "e" "f" "h" ↔
      (("a", "b", "c", "d", "e", "f", "g") =
        ("a", "b", "c", "d", "e", "f", "h")) :=
  (C6_amended_injective "a" "b" "c" "d" "e" "f" "g" "a" "b" "c" "d" "e" "f" "h"
    (by decide)).2

/-! ## C7: totality of the Identity Builder over the schema -/

/-- The fill loop changes no column's presence. -/
lemma colPresent_fill (row : SchemaRow) (c : String) :
    colPresent (fillOrgCols row) c = colPresent row c := by
  induction row with
  | nil => rfl
  | cons p rest ih =>
    have hq : (if p.1 ∈ org_cols then (p.1, some (fillUnknown p.2)) else p).1 = p.1 := by
      split <;> rfl
    simp only [fillOrgCols, List.map_cons, colPresent, List.any_cons] at *
    rw [hq, ih]

/-- Accessing a column of the filled row: a `KeyError` exactly when the
column is absent from the original schema. -/
lemma getStr_fill (row : SchemaRow) (c : String) :
    (colPresent row c = false ∧
      getStr (fillOrgCols row) c = Except.error ("KeyError: " ++ c)) ∨
    (colPresent row c = true ∧ ∃ v, getStr (fillOrgCols row) c = Except.ok v) := by
  induction row with
  | nil => exact Or.inl ⟨rfl, rfl⟩
  | cons p rest ih =>
    have hq : (if p.1 ∈ org_cols then (p.1, some (fillUnknown p.2)) else p).1 = p.1 := by
      split <;> rfl
    by_cases hc : p.1 = c
    · have hok : getStr (fillOrgCols (p :: rest)) c =
          Except.ok ((if p.1 ∈ org_cols then (p.1, some (fillUnknown p.2)) else p).2.getD "nan") := by
        simp only [fillOrgCols, List.map_cons, getStr]
        rw [List.find?_cons_of_pos _ (by rw [hq]; simp [hc])]
      exact Or.inr ⟨by simp [colPresent, hc], _, hok⟩
    · have hcol : colPresent (p :: rest) c = colPresent rest c := by
        simp [colPresent, hc]
      have hget : getStr (fillOrgCols (p :: rest)) c = getStr (fillOrgCols rest) c := by
        simp only [fillOrgCols, List.map_cons, getStr]
        rw [List.find?_cons_of_neg _ (by rw [hq]; simp [hc])]
      rcases ih with ⟨h1, h2⟩ | ⟨h1, v, h2⟩
      · exact Or.inl ⟨by rw [hcol, h1], by rw [hget]; exact h2⟩
      · exact Or.inr ⟨by rw [hcol, h1], v, by rw [hget]; exact h2⟩

/-- C7 counterexample: a schema that lacks `organisationunitname` entirely
is not skipped — the `Facility_ID` construction raises a `KeyError` and no
`Facility_ID` is produced. -/
theorem C7_counterexample :
    buildFacility_ID [("orgunitlevel1", some "A"), ("orgunitlevel2", some "B"),
      ("orgunitlevel3", some "C"), ("orgunitlevel4", some "D"),
      ("orgunitlevel5", some "E"), ("orgunitlevel6", some "F")] =
      Except.error "KeyError: organisationunitname" := by
  rfl

/-- C7 (amended): the fill step skips absent columns without error (it
changes no column's presence), but the `Facility_ID` construction itself
requires all 7 organizational-unit columns: it produces an ID exactly when
every one of them is present in the input schema, and raises a `KeyError`
otherwise. -/
theorem C7_amended (row : SchemaRow) :
    (∀ c, colPresent (fillOrgCols row) c = colPresent row c) ∧
    ((∃ s, buildFacility_ID row = Except.ok s) ↔
      ∀ c ∈ org_cols, colPresent row c = true) := by
  refine ⟨colPresent_fill row, ?_⟩
  rcases getStr_fill row "orgunitlevel1" with ⟨hp1, he1⟩ | ⟨hp1, v1, he1⟩
  · have hb : buildFacility_ID row = Except.error ("KeyError: " ++ "orgunitlevel1") := by
      simp only [buildFacility_ID, he1]
      rfl
    constructor
    · rintro ⟨s, hs⟩
      rw [hb] at hs
      simp at hs
    · intro hall
      have hc := hall "orgunitlevel1" (by simp [org_cols])
      rw [hp1] at hc
      exact Bool.noConfusion hc
  · rcases getStr_fill row "orgunitlevel2" with ⟨hp2, he2⟩ | ⟨hp2, v2, he2⟩
    · have hb : buildFacility_ID row = Except.error ("KeyError: " ++ "orgunitlevel2") := by
        simp only [buildFacility_ID, he1, he2]
        rfl
      constructor
      · rintro ⟨s, hs⟩
        rw [hb] at hs
        simp at hs
      · intro hall
        have hc := hall "orgunitlevel2" (by simp [org_cols])
        rw [hp2] at hc
        exact Bool.noConfusion hc
    · rcases getStr_fill row "orgunitlevel3" with ⟨hp3, he3⟩ | ⟨hp3, v3, he3⟩
      · have hb : buildFacility_ID row = Except.error ("KeyError: " ++ "orgunitlevel3") := by
          simp only [buildFacility_ID, he1, he2, he3]
          rfl
        constructor
        · rintro ⟨s, hs⟩
          rw [hb] at hs
          simp at hs
        · intro hall
          have hc := hall "orgunitlevel3" (by simp [org_cols])
          rw [hp3] at hc
          exact Bool.noConfusion hc
      · rcases getStr_fill row "orgunitlevel4" with ⟨hp4, he4⟩ | ⟨hp4, v4, he4⟩
        · have hb : buildFacility_ID row = Except.error ("KeyError: " ++ "orgunitlevel4") := by
            simp only [buildFacility_ID, he1, he2, he3, he4]
            rfl
          constructor
          · rintro ⟨s, hs⟩
            rw [hb] at hs
            simp at hs
          · intro hall
            have hc := hall "orgunitlevel4" (by simp [org_cols])
            rw [hp4] at hc
            exact Bool.noConfusion hc
        · rcases getStr_fill row "orgunitlevel5" with ⟨hp5, he5⟩ | ⟨hp5, v5, he5⟩
          · have hb : buildFacility_ID row = Except.error ("KeyError: " ++ "orgunitlevel5") := by
              simp only [buildFacility_ID, he1, he2, he3, he4, he5]
              rfl
            constructor
            · rintro ⟨s, hs⟩
              rw [hb] at hs
              simp at hs
            · intro hall
              have hc := hall "orgunitlevel5" (by simp [org_cols])
              rw [hp5] at hc
              exact Bool.noConfusion hc
          · rcases getStr_fill row "orgunitlevel6" with ⟨hp6, he6⟩ | ⟨hp6, v6, he6⟩
            · have hb : buildFacility_ID row = Except.error ("KeyError: " ++ "orgunitlevel6") := by
                simp only [buildFacility_ID, he1, he2, he3, he4, he5, he6]
                rfl
              constructor
              · rintro ⟨s, hs⟩
                rw [hb] at hs
                simp at hs
              · intro hall
                have hc := hall "orgunitlevel6" (by simp [org_cols])
                rw [hp6] at hc
                exact Bool.noConfusion hc
            · rcases getStr_fill row "organisationunitname" with ⟨hp7, he7⟩ | ⟨hp7, v7, he7⟩
              · have hb : buildFacility_ID row =
                    Except.error ("KeyError: " ++ "organisationunitname") := by
                  simp only [buildFacility_ID, he1, he2, he3, he4, he5, he6, he7]
                  rfl
                constructor
                · rintro ⟨s, hs⟩
                  rw [hb] at hs
                  simp at hs
                · intro hall
                  have hc := hall "organisationunitname" (by simp [org_cols])
                  rw [hp7] at hc
                  exact Bool.noConfusion hc
              · constructor
                · intro _ c hcmem
                  simp only [org_cols, List.mem_cons, List.not_mem_nil, or_false] at hcmem
                  rcases hcmem with rfl | rfl | rfl | rfl | rfl | rfl | rfl
                  exacts [hp1, hp2, hp3, hp4, hp5, hp6, hp7]
                · intro _
                  refine ⟨Facility_ID v1 v2 v3 v4 v5 v6 v7, ?_⟩
                  simp only [buildFacility_ID, he1, he2, he3, he4, he5, he6, he7]
                  rfl

/-- Witness for C7 (amended): a full 7-column schema (one value missing,
filled with "Unknown") does produce a Facility_ID. -/
theorem C7_witness :
    ∃ s, buildFacility_ID [("orgunitlevel1", some "A"), ("orgunitlevel2", some "B"),
      ("orgunitlevel3", some "C"), ("orgunitlevel4", some "D"),
      ("orgunitlevel5", some "E"), ("orgunitlevel6", some "F"),
      ("organisationunitname", none)] = Except.ok s :=
  (C7_amended [("orgunitlevel1", some "A"), ("orgunitlevel2", some "B"),
    ("orgunitlevel3", some "C"), ("orgunitlevel4", some "D"),
    ("orgunitlevel5", some "E"), ("orgunitlevel6", some "F"),
    ("organisationunitname", none)]).2.mpr (by decide)

/-! ## C3: period parser bounds -/

/-- A successful `\d{n}` match yields exactly `n` digit characters. -/
lemma matchDigitsN_spec (n : ℕ) : ∀ s ds r, matchDigitsN n s = some (ds, r) →
    ds.length = n ∧ ∀ c ∈ ds, isDigitChar c = true := by
  induction n with
  | zero =>
    intro s ds r h
    simp only [matchDigitsN, Option.some.injEq, Prod.mk.injEq] at h
    obtain ⟨rfl, rfl⟩ := h
    exact ⟨rfl, by simp⟩
  | succ n ih =>
    intro s ds r h
    cases s with
    | nil => simp [matchDigitsN] at h
    | cons x xs =>
      simp only [matchDigitsN] at h
      by_cases hx : isDigitChar x
      · rw [if_pos hx] at h
        cases hmd : matchDigitsN n xs with
        | none => rw [hmd] at h; simp at h
        | some p =>
          rw [hmd] at h
          simp only [Option.map_some', Option.some.injEq, Prod.mk.injEq] at h
          obtain ⟨rfl, rfl⟩ := h
          obtain ⟨hl, hd⟩ := ih xs p.1 p.2 (by rw [hmd])
          refine ⟨by simp [hl], ?_⟩
          intro c hc
          rcases List.mem_cons.mp hc with rfl | hc
          · exact hx
          · exact hd c hc
      · rw [if_neg hx] at h
        simp at h

/-- Accumulator bound for the base-10 fold over digit characters. -/
lemma foldl_digits_lt : ∀ (ds : List Char), (∀ c ∈ ds, isDigitChar c = true) →
    ∀ a : ℕ, ds.foldl (fun a c => 10 * a + (c.toNat - '0'.toNat)) a <
      10 ^ ds.length * (a + 1) := by
  intro ds
  induction ds with
  | nil =>
    intro _ a
    simp only [List.foldl_nil, List.length_nil, pow_zero, one_mul]
    exact Nat.lt_succ_self a
  | cons c cs ih =>
    intro hd a
    have hc := hd c (List.mem_cons_self c cs)
    have hc9 : c.toNat - '0'.toNat ≤ 9 := by
      simp only [isDigitChar, Bool.and_eq_true, decide_eq_true_eq] at hc
      have h0 : '0'.toNat = 48 := rfl
      omega
    have hd' : ∀ x ∈ cs, isDigitChar x = true :=
      fun x hx => hd x (List.mem_cons_of_mem _ hx)
    simp only [List.foldl_cons, List.length_cons]
    calc cs.foldl (fun a c => 10 * a + (c.toNat - '0'.toNat))
          (10 * a + (c.toNat - '0'.toNat)) <
        10 ^ cs.length * (10 * a + (c.toNat - '0'.toNat) + 1) := ih hd' _
      _ ≤ 10 ^ cs.length * (10 * (a + 1)) := Nat.mul_le_mul_left _ (by omega)
      _ = 10 ^ (cs.length + 1) * (a + 1) := by rw [pow_succ]; ring

/-- The numeric value of a digit capture is below `10 ^ length`. -/
lemma digitsToNat_lt (ds : List Char) (hd : ∀ c ∈ ds, isDigitChar c = true) :
    digitsToNat ds < 10 ^ ds.length := by
  simpa [digitsToNat] using foldl_digits_lt ds hd 0

/-- The year capture of a successful pattern match is exactly 4 digits. -/
lemma matchPeriodAt_year (s : List Char) (wk yr : List Char)
    (h : matchPeriodAt s = some (wk, yr)) :
    yr.length = 4 ∧ ∀ c ∈ yr, isDigitChar c = true := by
  unfold matchPeriodAt at h
  split at h
  · exact absurd h (by simp)
  · dsimp only at h
    split at h
    · exact absurd h (by simp)
    · split at h
      · exact absurd h (by simp)
      · split at h
        · exact absurd h (by simp)
        · rename_i yr4 s4 hdig
          split at h
          · exact absurd h (by simp)
          · simp only [Option.some.injEq, Prod.mk.injEq] at h
            obtain ⟨_, rfl⟩ := h
            exact matchDigitsN_spec 4 _ yr4 s4 hdig

/-- The year capture of a successful search is exactly 4 digits. -/
lemma searchPeriod_year : ∀ (s wk yr : List Char), searchPeriod s = some (wk, yr) →
    yr.length = 4 ∧ ∀ c ∈ yr, isDigitChar c = true := by
  intro s
  induction s with
  | nil =>
    intro wk yr h
    exact matchPeriodAt_year [] wk yr h
  | cons c rest ih =>
    intro wk yr h
    cases hm : matchPeriodAt (c :: rest) with
    | none =>
      have hstep : searchPeriod (c :: rest) = searchPeriod rest := by
        simp [searchPeriod, hm]
      rw [hstep] at h
      exact ih wk yr h
    | some r =>
      have hstep : searchPeriod (c :: rest) = some r := by
        simp [searchPeriod, hm]
      rw [hstep] at h
      simp only [Option.some.injEq] at h
      exact matchPeriodAt_year (c :: rest) wk yr (by rw [hm, h])

/-- C3 (amended): a matching label constrains only the year capture — the
extracted Year lies in [0, 9999] (exactly 4 digits are consumed), while the
Week capture is an unbounded digit run, not confined to [1, 53]; a label
that does not match the pattern is silently dropped and its row is absent
from the Reshaper input. -/
theorem C3_amended_period (l : String) :
    (forall w y, extractWeekYear l = some (w, y) -> y <= 9999) ∧
    (extractWeekYear l = none ->
      forall (labels : List String) (w y : ℕ), (l, w, y) ∉ parsePeriodRows labels) := by
  constructor
  · intro w y h
    unfold extractWeekYear at h
    cases hs : searchPeriod (stripChars l.data) with
    | none => rw [hs] at h; simp at h
    | some p =>
      rw [hs] at h
      simp only [Option.map_some', Option.some.injEq, Prod.mk.injEq] at h
      obtain ⟨rfl, rfl⟩ := h
      obtain ⟨hl, hd⟩ := searchPeriod_year _ _ _ (by rw [hs])
      have hb := digitsToNat_lt p.2 hd
      rw [hl] at hb
      omega
  · intro hnone labels w y hmem
    simp only [parsePeriodRows, List.mem_filterMap] at hmem
    obtain ⟨x, hx, hmap⟩ := hmem
    cases he : extractWeekYear x with
    | none => rw [he] at hmap; simp at hmap
    | some p =>
      rw [he] at hmap
      simp only [Option.map_some', Option.some.injEq, Prod.mk.injEq] at hmap
      obtain ⟨rfl, _, _⟩ := hmap
      rw [he] at hnone
      exact Option.noConfusion hnone

/-- C3 counterexample: the label "Week 99 2024-01-06 - 2024-01-12" matches
the fixed pattern, yet its extracted week 99 is outside [1, 53]. -/
theorem C3_counterexample :
    extractWeekYear "Week 99 2024-01-06 - 2024-01-12" = some (99, 2024) ∧
    ¬(1 ≤ 99 ∧ (99 : ℕ) ≤ 53) := by
  exact ⟨by rfl, by decide⟩

/-- Witness for C3 (amended) at concrete labels. -/
theorem C3_witness :
    (2024 : ℕ) ≤ 9999 ∧ ("nonsense", 5, 2024) ∉ parsePeriodRows ["nonsense"] :=
  ⟨(C3_amended_period "Week 7 2024-02-12 - 2024-02-18").1 7 2024 rfl,
   (C3_amended_period "nonsense").2 rfl ["nonsense"] 5 2024⟩

end KPalerts
